import Mathlib

/-!
Verification of the thepipe extraction pipeline (src/thepipe/core.py and
src/thepipe/scraper.py) against its natural-language specification.

The Python code is shallowly embedded: pure functions become Lean functions,
the PIL image collaborator becomes an explicit record carrying its dimensions,
pixel data and an open/closed flag, fallible code returns `Except PyErr`, and
the thread pool of `scrape_pdf` is modelled by quantifying over the completion
order (a permutation of the submitted page indices).  Python float arithmetic
in token accounting is idealised as exact rational arithmetic (all summands
are quarters, which binary floats represent exactly in the relevant range).
-/

namespace ThePipe

/-- Whether a fallible computation returned normally (rather than raising). -/
def isOkB {ε α : Type} : Except ε α → Bool
  | .ok _ => true
  | .error _ => false

/-- Python exceptions, as far as the control flow of the scraper
distinguishes them: `PermissionError` is caught specially by
`scrape_directory`; every other exception is carried with its message. -/
inductive PyErr where
  | perm : PyErr
  | err : String → PyErr
deriving Repr, DecidableEq

/-- Model of a PIL image (`PIL.Image.Image`): dimensions, decoded pixel
data, and whether the underlying handle has been closed.  PIL itself is an
external collaborator; only the state the core observes is modelled. -/
structure Img where
  width : Nat
  height : Nat
  data : List Nat
  closed : Bool
deriving Repr, DecidableEq

/-- `core.prepare_image` (core.py lines 34-52): load the image, return an
independently owned in-memory copy, and close the originating handle.  The
state-passing embedding returns the pair (returned copy, original after the
call); the external PIL operations `load`/`copy`/`close` are assumed correct
per the spec's collaborator contract, so the defensive `except` arms of the
source are the non-raising path here. -/
def prepare_image_full (i : Img) : Img × Img :=
  (⟨i.width, i.height, i.data, false⟩, ⟨i.width, i.height, i.data, true⟩)

/-- The value `core.prepare_image` returns (first component of the call's
effect). -/
def prepare_image (i : Img) : Img :=
  (prepare_image_full i).1

/-- The Content Unit record (`core.Chunk` fields after construction). -/
structure Chunk where
  path : Option String
  text : String
  images : List Img
  audios : List String
  videos : List String
deriving Repr, DecidableEq

/-- `core.Chunk.__init__` (core.py lines 86-99): `text or ""` turns a missing
or `None` text into `""`; `images`, `audios`, `videos` are normalised from
possibly-`None` iterables to concrete lists, each stored image passing
through `prepare_image`. -/
def Chunk.init (path : Option String) (text : Option String)
    (images : Option (List Img)) (audios : Option (List String))
    (videos : Option (List String)) : Chunk :=
  { path := path
  , text := text.getD ""
  , images := (images.getD []).map prepare_image
  , audios := audios.getD []
  , videos := videos.getD [] }

/-- A unit is content-bearing when it has non-empty text or at least one
image (spec §3 invariant). -/
def isContentBearing (c : Chunk) : Bool :=
  c.text != "" || !c.images.isEmpty

/-! ### Python string primitives used by the scraper -/

/-- The whitespace characters `str.strip()` removes (ASCII subset; the wider
Unicode set never occurs in the fence markers and timestamps at issue). -/
def isPySpace (c : Char) : Bool :=
  c = ' ' || c = '\t' || c = '\n' || c = '\r' || c = Char.ofNat 11 || c = Char.ofNat 12

/-- Drop trailing elements satisfying `p`. -/
def trimEndList {α : Type} (p : α → Bool) (l : List α) : List α :=
  (l.reverse.dropWhile p).reverse

/-- `str.strip()` on the character list: drop leading and trailing
whitespace. -/
def pyStripList (l : List Char) : List Char :=
  trimEndList isPySpace (l.dropWhile isPySpace)

/-- Python `str.strip()`. -/
def pyStrip (s : String) : String :=
  ⟨pyStripList s.data⟩

/-- `"\n".join(texts)`. -/
def joinNL : List String → String
  | [] => ""
  | [s] => s
  | s :: rest => s ++ "\n" ++ joinNL rest

/-- Match `pat` against the front of `l`; on success return the rest. -/
def dropMatch? : List Char → List Char → Option (List Char)
  | [], l => some l
  | _ :: _, [] => none
  | p :: ps, c :: cs => if p = c then dropMatch? ps cs else none

/-- Python `s.startswith(pre)` (structural recursion on the character
lists, so that concrete instances evaluate). -/
def strStartsWith (s pre : String) : Bool :=
  (dropMatch? pre.data s.data).isSome

/-- Python `s.endswith(suf)`. -/
def strEndsWith (s suf : String) : Bool :=
  (dropMatch? suf.data.reverse s.data.reverse).isSome

/-- Auxiliary loop of Python `str.replace(pat, "")` for a non-empty
pattern `p :: ps`: every occurrence is removed.  Each step consumes at
least one character, so the input length is enough fuel. -/
def replaceAllAux (p : Char) (ps : List Char) : Nat → List Char → List Char
  | 0, l => l
  | _, [] => []
  | fuel + 1, c :: cs =>
    match dropMatch? (p :: ps) (c :: cs) with
    | some rest => replaceAllAux p ps fuel rest
    | none => c :: replaceAllAux p ps fuel cs

/-- Python `s.replace(pat, "")` (used by `Chunk.from_json` to remove the
data-URI marker; an empty pattern leaves the string unchanged). -/
def pyReplace (s pat : String) : String :=
  match pat.data with
  | [] => s
  | p :: ps => ⟨replaceAllAux p ps s.data.length s.data⟩

/-! ### Token accounting (core.py lines 271-298) -/

/-- The `detail == "high"` arm of `core.calculate_image_tokens`: cap each
dimension at 2048, scale so the short side is 768, and count the 512×512
tiles with floor division, exactly as the source's `//` does.  Python's
float `scale = 768 / short_side` followed by `int(width * scale)` is
idealised as the exact `⌊width * 768 / short⌋`. -/
def imageTokensHigh (w h : Nat) : Nat :=
  let w2 := min w 2048
  let h2 := min h 2048
  let short := min w2 h2
  let sw := w2 * 768 / short
  let sh := h2 * 768 / short
  170 * ((sw / 512) * (sh / 512)) + 85

/-- `core.calculate_image_tokens` (core.py lines 271-287).  The source's
recursive call `calculate_image_tokens(image, detail="high")` in the `auto`
arm is unfolded to the `high` arm's body. -/
def calculate_image_tokens (img : Img) (detail : String) : Nat :=
  if detail = "low" then 85
  else if detail = "high" then imageTokensHigh img.width img.height
  else if img.width ≤ 512 ∧ img.height ≤ 512 then 85
  else imageTokensHigh img.width img.height

/-- The claim's formula for the non-85 tier, following the spec's words:
`T` is the number of 512×512 tiles that COVER the scaled image, i.e. the
ceiling-division count, after capping at 2048 and scaling the short side
to 768. -/
def claimImageTokens (w h : Nat) (detail : String) : Nat :=
  if detail = "low" ∨ (w ≤ 512 ∧ h ≤ 512) then 85
  else
    let w2 := min w 2048
    let h2 := min h 2048
    let short := min w2 h2
    let sw := w2 * 768 / short
    let sh := h2 * 768 / short
    170 * (((sw + 511) / 512) * ((sh + 511) / 512)) + 85

/-- The amended claim's image-token formula: 85 for detail `low`, or for the
default `auto` detail when both dimensions are at most 512; otherwise
170 × T + 85 where T is the number of complete 512×512 tiles that fit inside
the image after capping each dimension at 2048 and scaling the short side
to 768 (floor division, matching the source's `//`). -/
def amendedImageTokens (w h : Nat) (detail : String) : Nat :=
  if detail = "low" ∨ (detail ≠ "high" ∧ w ≤ 512 ∧ h ≤ 512) then 85
  else
    let w2 := min w 2048
    let h2 := min h 2048
    let short := min w2 h2
    let sw := w2 * 768 / short
    let sh := h2 * 768 / short
    170 * ((sw / 512) * (sh / 512)) + 85

/-- One chunk's contribution to the running float total of
`core.calculate_tokens`: `len(text)/4` when text is non-empty, plus the
image costs at the default `auto` detail when images are present and
`text_only` is off. -/
def chunkTokensQ (c : Chunk) (text_only : Bool) : ℚ :=
  (if c.text ≠ "" then (c.text.length : ℚ) / 4 else 0) +
  (if c.images ≠ [] ∧ ¬ text_only then
    ((c.images.map (fun i => calculate_image_tokens i "auto")).sum : ℚ)
  else 0)

/-- `core.calculate_tokens` (core.py lines 290-298): accumulate the per-chunk
contributions and truncate with `int(...)`; the accumulator is non-negative,
so truncation is the floor. -/
def calculate_tokens (chunks : List Chunk) (text_only : Bool) : Nat :=
  ⌊(chunks.map (fun c => chunkTokensQ c text_only)).sum⌋₊

/-! ### Serialisation (core.py lines 201-268) -/

/-- The record `Chunk.to_json` emits and `Chunk.from_json` consumes. -/
structure ChunkJson where
  path : Option String
  text : String
  images : List String
  audios : List String
  videos : List String
deriving Repr, DecidableEq

/-- Base64 alphabet. -/
def b64Chars : List Char :=
  "ABCDEFGHIJKLMNOPQRSTUVWXYZabcdefghijklmnopqrstuvwxyz0123456789+/".data

/-- Character of a 6-bit value. -/
def b64Char (n : Nat) : Char :=
  b64Chars.getD n '='

/-- `base64.b64encode` over byte lists. -/
def b64encodeAux : List Nat → List Char
  | [] => []
  | [a] => [b64Char (a / 4), b64Char (a % 4 * 16), '=', '=']
  | [a, b] => [b64Char (a / 4), b64Char (a % 4 * 16 + b / 16), b64Char (b % 16 * 4), '=']
  | a :: b :: c :: rest =>
    b64Char (a / 4) :: b64Char (a % 4 * 16 + b / 16) ::
      b64Char (b % 16 * 4 + c / 64) :: b64Char (c % 64) :: b64encodeAux rest

/-- `base64.b64encode(...).decode()`. -/
def b64encode (bs : List Nat) : String :=
  ⟨b64encodeAux bs⟩

/-- 6-bit value of a base64 character. -/
def b64Val (c : Char) : Nat :=
  (b64Chars.indexOf c) % 64

/-- `base64.b64decode` over the character list. -/
def b64decodeAux : List Char → List Nat
  | a :: b :: c :: d :: rest =>
    if c = '=' then [b64Val a * 4 + b64Val b / 16]
    else if d = '=' then
      [b64Val a * 4 + b64Val b / 16, b64Val b % 16 * 16 + b64Val c / 4]
    else
      (b64Val a * 4 + b64Val b / 16) :: (b64Val b % 16 * 16 + b64Val c / 4) ::
        (b64Val c % 4 * 64 + b64Val d) :: b64decodeAux rest
  | _ => []

/-- `base64.b64decode`. -/
def b64decode (s : String) : List Nat :=
  b64decodeAux s.data

/-- `core.make_image_url` (core.py lines 243-268) with no `max_resolution`.
The hosted branch uploads through an external store, abstracted by
`hostStore`; the inline branch JPEG-encodes (external PIL encoder
`jpegBytes`) and wraps in a data URI. -/
def make_image_url (jpegBytes : Img → List Nat) (hostStore : Img → String)
    (img : Img) (host_images : Bool) : String :=
  if host_images then hostStore img
  else "data:image/jpeg;base64," ++ b64encode (jpegBytes img)

/-- `core.Chunk.to_json` (core.py lines 201-217). -/
def Chunk.to_json (jpegBytes : Img → List Nat) (hostStore : Img → String)
    (c : Chunk) (host_images text_only : Bool) : ChunkJson :=
  { path := c.path
  , text := pyStrip c.text
  , images :=
      if c.images = [] then []
      else if text_only then []
      else c.images.map (fun i => make_image_url jpegBytes hostStore i host_images)
  , audios := c.audios
  , videos := c.videos }

/-- `core.Chunk.from_json` (core.py lines 219-240): each serialised image is
fetched (hosted mode, external `fetch`) or base64-decoded after removing the
data-URI marker, then opened by the external PIL decoder `jpegOpen`; the
`audios`/`videos` arguments of the constructor are commented out in the
source, so they are not passed through. -/
def Chunk.from_json (jpegOpen : List Nat → Img) (fetch : String → List Nat)
    (d : ChunkJson) (host_images : Bool) : Chunk :=
  let images := d.images.map (fun s =>
    if host_images then jpegOpen (fetch s)
    else jpegOpen (b64decode (pyReplace s "data:image/jpeg;base64,")))
  Chunk.init d.path (some (pyStrip d.text)) (some images) none none

/-! ### Chunker (imported from thepipe/chunker.py, which is not under src/) -/

/-- Modelled from the spec: `chunker.py` is not under `src/`; spec §4.7
describes the default strategy as "By page: identity — one output unit per
input unit (default)". -/
def chunk_by_page (chunks : List Chunk) : List Chunk :=
  chunks

/-! ### Simple extractors (scraper.py) -/

/-- `scraper.scrape_plaintext` (scraper.py lines 274-277): the file read is
abstracted into `content`; one chunk carrying the raw text, no images. -/
def scrape_plaintext (path : String) (content : String) : List Chunk :=
  [Chunk.init (some path) (some content) none none none]

/-- One Whisper segment as `scrape_audio` consumes it: the two formatted
timestamps (produced by `format_timestamp`, whose float arithmetic is
abstracted into the pre-formatted strings) and the segment text. -/
structure AudioSegment where
  start : String
  stop : String
  text : String
deriving Repr, DecidableEq

/-- `scraper.scrape_audio` (scraper.py lines 1017-1032): keep the segments
whose stripped text is non-empty, format each as a bracketed timestamp line,
join with newlines, and return a single chunk. -/
def scrape_audio (path : String) (segments : List AudioSegment) : List Chunk :=
  let transcript := (segments.filter (fun s => pyStrip s.text ≠ "")).map
    (fun s => "[" ++ s.start ++ " --> " ++ s.stop ++ "]  " ++ s.text)
  [Chunk.init (some path) (some (joinNL transcript)) none none none]

/-! ### PDF extraction engine (scraper.scrape_pdf, VLM branch) -/

/-- Strip the markdown fences from an LLM response, as `_process_page` does
after `strip()`: a leading language-tagged or bare fence, then a trailing
fence. -/
def stripFenceResponse (s : String) : String :=
  let s1 := pyStrip s
  let s2 :=
    if strStartsWith s1 "```markdown" then s1.drop 11
    else if strStartsWith s1 "```" then s1.drop 3
    else s1
  if strEndsWith s2 "```" then s2.dropRight 3 else s2

/-- The result a page worker computes: extracted text and the optionally
rendered page image. -/
def PageResult : Type := String × Option Img

/-- `scrape_pdf._process_page`'s handling of the model reply (scraper.py
lines 435-455): `resp` is `response.choices[0].message.content`; a `None` or
empty reply raises `RuntimeError("Empty LLM response.")`, otherwise the
fences are stripped and the page image is attached only when output images
are requested. -/
def process_page (pageImage : Option Img) (include_output_images : Bool)
    (resp : Option String) : Except PyErr PageResult :=
  match resp with
  | none => .error (.err "Empty LLM response.")
  | some r =>
    if r = "" then .error (.err "Empty LLM response.")
    else .ok (stripFenceResponse r, if include_output_images then pageImage else none)

/-- Drain the completed futures in completion order (`as_completed`): the
first `fut.result()` that re-raises aborts the batch; otherwise the results
are collected keyed by their original page index. -/
def runPages (page : Nat → Except PyErr PageResult) :
    List Nat → Except PyErr (List (Nat × PageResult))
  | [] => .ok []
  | p :: rest =>
    match page p with
    | .error e => .error e
    | .ok r =>
      match runPages page rest with
      | .error e => .error e
      | .ok rs => .ok ((p, r) :: rs)

/-- The reassembly loop of `scrape_pdf` (scraper.py lines 471-473): iterate
over `sorted(page_results)` and emit one chunk per page. -/
def emitChunks (path : String) (results : List (Nat × PageResult)) : List Chunk :=
  ((results.map Prod.fst).insertionSort (· ≤ ·)).map (fun p =>
    let r := (results.lookup p).getD ("", none)
    Chunk.init (some path) (some r.1)
      (some (match r.2 with | some i => [i] | none => [])) none none)

/-- `scraper.scrape_pdf`, VLM branch (scraper.py lines 389-475): submit one
task per page, drain in completion order `order` (a permutation of
`range numPages` chosen by the thread pool), and reassemble by ascending
page index. -/
def scrape_pdf_vlm (path : String) (numPages : Nat) (order : List Nat)
    (page : Nat → Except PyErr PageResult) : Except PyErr (List Chunk) :=
  match runPages page order with
  | .error e => .error e
  | .ok results => .ok (emitChunks path results)

/-! ### Web scraping (scraper.py lines 551-909) -/

/-- The composite screenshot `parse_webpage_with_vlm` builds: width is the
maximum, height the sum of the stacked viewport screenshots. -/
def stackImages (imgs : List Img) : Img :=
  { width := (imgs.map Img.width).foldr max 0
  , height := (imgs.map Img.height).sum
  , data := (imgs.map Img.data).flatten
  , closed := false }

/-- `scraper.parse_webpage_with_vlm` (scraper.py lines 551-643) after the
browser loop: `screenshots` are the captured viewports; no screenshot raises
`ValueError`, an absent or empty model reply raises, and otherwise the raw
reply (no fence stripping here) becomes the chunk text with the stacked
image attached only when output images are requested. -/
def parse_webpage_with_vlm (url : String) (screenshots : List Img)
    (resp : Option String) (include_output_images : Bool) : Except PyErr Chunk :=
  if screenshots = [] then
    .error (.err "Model received 0 images from webpage")
  else
    match resp with
    | none => .error (.err "Failed to receive a message content from LLM Response")
    | some r =>
      if r = "" then .error (.err "Failed to receive a message content from LLM Response")
      else
        .ok (Chunk.init (some url) (some r)
          (some (if include_output_images then [stackImages screenshots] else []))
          none none)

/-- `scraper.extract_page_content` (scraper.py lines 646-835) at tier
granularity: `tier2` is the outcome of the headless-browser pass (converted
markdown plus independently resolved images), `tier3` of the plain `requests`
fallback run inside the `except` arm.  When both raise, the source appends
`""` to `texts`; the function itself never raises — it always returns a
chunk built from `"\n".join(texts).strip()`. -/
def extract_page_content (url : String)
    (tier2 : Except PyErr (String × List Img)) (tier3 : Except PyErr String) : Chunk :=
  match tier2 with
  | .ok (md, imgs) =>
    Chunk.init (some url) (some (pyStrip (joinNL [md]))) (some imgs) none none
  | .error _ =>
    match tier3 with
    | .ok md =>
      Chunk.init (some url) (some (pyStrip (joinNL [md]))) (some []) none none
    | .error _ =>
      Chunk.init (some url) (some (pyStrip (joinNL [""]))) (some []) none none

/-- The final no-content check of `scrape_url` (scraper.py lines 904-909):
after chunking, raise `ValueError` when no chunk has text and no chunk has
images. -/
def finishWeb (chunks : List Chunk) : Except PyErr (List Chunk) :=
  if ¬ (chunks.any (fun c => c.text ≠ "")) ∧ ¬ (chunks.any (fun c => c.images ≠ [])) then
    .error (.err "No content extracted from URL.")
  else .ok chunks

/-- The generic web branch of `scraper.scrape_url` (scraper.py lines
889-909): with a client and input images the VLM capture is called with no
surrounding try/except, so its error propagates; otherwise
`extract_page_content` runs; the default `chunk_by_page` then the no-content
check follow. -/
def scrape_url_web (url : String) (hasClient include_input_images : Bool)
    (include_output_images : Bool)
    (tier1 : Except PyErr Chunk)
    (tier2 : Except PyErr (String × List Img)) (tier3 : Except PyErr String) :
    Except PyErr (List Chunk) :=
  if hasClient ∧ include_input_images then
    match tier1 with
    | .error e => .error e
    | .ok c => finishWeb (chunk_by_page [c])
  else
    finishWeb (chunk_by_page [extract_page_content url tier2 tier3])

/-! ### File dispatch (scraper.scrape_file) and directory traversal -/

/-- The outcome each type-specific strategy would produce for the source at
hand, one field per dispatch branch of `scrape_file`. -/
structure StrategyResults where
  pdf : Except PyErr (List Chunk)
  docx : Except PyErr (List Chunk)
  pptx : Except PyErr (List Chunk)
  image : Except PyErr (List Chunk)
  spreadsheet : Except PyErr (List Chunk)
  ipynb : Except PyErr (List Chunk)
  zip : Except PyErr (List Chunk)
  video : Except PyErr (List Chunk)
  audio : Except PyErr (List Chunk)
  html : Except PyErr (List Chunk)
  plaintext : Except PyErr (List Chunk)

/-- The dispatch chain of `scraper.scrape_file` (scraper.py lines 176-251):
every recognised branch returns its strategy's outcome unguarded (an
exception propagates); only the final best-effort plain-text branch wraps
the call in try/except, degrading a failure to the empty list. -/
def scrape_file_dispatch (mt : String) (r : StrategyResults) :
    Except PyErr (List Chunk) :=
  if mt = "application/pdf" then r.pdf
  else if mt = "application/vnd.openxmlformats-officedocument.wordprocessingml.document" then r.docx
  else if mt = "application/vnd.openxmlformats-officedocument.presentationml.presentation" then r.pptx
  else if strStartsWith mt "image/" then r.image
  else if strStartsWith mt "application/vnd.ms-excel" ∨
      mt = "application/vnd.openxmlformats-officedocument.spreadsheetml.sheet" then r.spreadsheet
  else if mt = "application/x-ipynb+json" then r.ipynb
  else if mt = "application/zip" ∨ mt = "application/x-zip-compressed" then r.zip
  else if strStartsWith mt "video/" then r.video
  else if strStartsWith mt "audio/" then r.audio
  else if strStartsWith mt "text/html" then r.html
  else if strStartsWith mt "text/" then r.plaintext
  else
    match r.plaintext with
    | .ok cs => .ok cs
    | .error _ => .ok []

/-- `scraper.scrape_file` (scraper.py lines 134-259): dispatch, then apply
the chunking method (default `chunk_by_page`) to whatever was scraped. -/
def scrape_file (mt : String) (r : StrategyResults) : Except PyErr (List Chunk) :=
  match scrape_file_dispatch mt r with
  | .error e => .error e
  | .ok cs => .ok (chunk_by_page cs)

/-- A directory tree as `scrape_directory` walks it: a file entry carries
the outcome of its `scrape_file` call; a directory entry carries whether its
own `os.scandir` succeeds and its children. -/
inductive FSNode where
  | file : Except PyErr (List Chunk) → FSNode
  | dir : Bool → List FSNode → FSNode

/-- The loop of `scraper.scrape_directory` (scraper.py lines 296-352).  The
single try/except wraps the whole `os.scandir` loop and catches only
`PermissionError`, returning the chunks accumulated so far; a recursive call
runs under the child frame's own try/except, so an unreadable subdirectory
yields `[]` and the parent loop continues; any non-permission error
propagates. -/
def scrapeEntries : List FSNode → List Chunk → Except PyErr (List Chunk)
  | [], acc => .ok acc
  | .file (.error .perm) :: _, acc => .ok acc
  | .file (.error (.err m)) :: _, _ => .error (.err m)
  | .file (.ok cs) :: rest, acc => scrapeEntries rest (acc ++ cs)
  | .dir readable sub :: rest, acc =>
    if readable then
      match scrapeEntries sub [] with
      | .ok cs => scrapeEntries rest (acc ++ cs)
      | .error .perm => .ok acc
      | .error (.err m) => .error (.err m)
    else
      scrapeEntries rest acc
termination_by l _ => sizeOf l
decreasing_by all_goals simp_wf <;> omega

/-- `scraper.scrape_directory` on one directory: an unreadable listing is
caught by the frame's `except PermissionError` with nothing accumulated. -/
def scrape_directory (readable : Bool) (entries : List FSNode) :
    Except PyErr (List Chunk) :=
  if readable then scrapeEntries entries [] else .ok []

/-! ## Helper lemmas -/

theorem dropWhile_dropWhile {α : Type} (p : α → Bool) (l : List α) :
    (l.dropWhile p).dropWhile p = l.dropWhile p := by
  induction l with
  | nil => simp
  | cons a t ih =>
    by_cases h : p a
    · simp [List.dropWhile_cons, h, ih]
    · simp [List.dropWhile_cons, h]

theorem dropWhile_append_singleton {α : Type} (p : α → Bool) (a : α)
    (h : p a = false) :
    ∀ u : List α, (u ++ [a]).dropWhile p = u.dropWhile p ++ [a] := by
  intro u
  induction u with
  | nil => simp [List.dropWhile_cons, h]
  | cons x xs ih =>
    by_cases hx : p x
    · simp [List.dropWhile_cons, hx, ih]
    · simp [List.dropWhile_cons, hx]

theorem trimEndList_cons {α : Type} (p : α → Bool) (a : α) (t : List α)
    (h : p a = false) :
    trimEndList p (a :: t) = a :: trimEndList p t := by
  simp only [trimEndList, List.reverse_cons]
  rw [dropWhile_append_singleton p a h]
  simp

theorem dropWhile_head_false {α : Type} (p : α → Bool) (a : α) (t : List α)
    (h : (a :: t).dropWhile p = a :: t) : p a = false := by
  cases hb : p a with
  | false => rfl
  | true =>
    exfalso
    simp only [List.dropWhile_cons, hb, if_true] at h
    have hlen : (t.dropWhile p).length ≤ t.length :=
      (List.dropWhile_sublist (l := t) (p := p)).length_le
    rw [h] at hlen
    simp at hlen

theorem dropWhile_trimEndList {α : Type} (p : α → Bool) (l : List α)
    (h : l.dropWhile p = l) :
    (trimEndList p l).dropWhile p = trimEndList p l := by
  cases l with
  | nil => simp [trimEndList]
  | cons a t =>
    have hpa : p a = false := dropWhile_head_false p a t h
    rw [trimEndList_cons p a t hpa]
    simp [List.dropWhile_cons, hpa]

theorem trimEndList_trimEndList {α : Type} (p : α → Bool) (l : List α) :
    trimEndList p (trimEndList p l) = trimEndList p l := by
  simp [trimEndList, dropWhile_dropWhile]

theorem pyStripList_idem (l : List Char) :
    pyStripList (pyStripList l) = pyStripList l := by
  unfold pyStripList
  rw [dropWhile_trimEndList isPySpace _ (dropWhile_dropWhile isPySpace l)]
  exact trimEndList_trimEndList isPySpace _

theorem pyStrip_data (s : String) : (pyStrip s).data = pyStripList s.data := rfl

theorem pyStrip_idem (s : String) : pyStrip (pyStrip s) = pyStrip s :=
  congrArg String.mk (pyStripList_idem s.data)

theorem string_length_pos_ne_empty (s : String) (h : 0 < s.length) : s ≠ "" := by
  intro hc
  rw [hc] at h
  exact absurd h (by decide)

theorem joinNL_cons_ne_empty (s : String) (rest : List String)
    (h : 0 < s.length) : joinNL (s :: rest) ≠ "" := by
  apply string_length_pos_ne_empty
  cases rest with
  | nil => simpa [joinNL]
  | cons r t =>
    show 0 < (s ++ "\n" ++ joinNL (r :: t)).length
    rw [String.length_append, String.length_append]
    omega

/-! ## Claim C10 -/

/-- Claim C10: every Chunk produced by the constructor has a string text
field (a `None` or missing text argument is normalised to the empty
string), concrete lists for images, audios and videos (`None` normalised to
empty lists), and each stored image is the in-memory copy `prepare_image`
returns — open and carrying the source image's data — while the originating
handle comes back closed from the call. -/
theorem claim_C10 (path text : Option String) (images : Option (List Img))
    (audios videos : Option (List String)) :
    (Chunk.init path text images audios videos).text = text.getD "" ∧
    (Chunk.init path text images audios videos).images
      = (images.getD []).map prepare_image ∧
    (Chunk.init path text images audios videos).audios = audios.getD [] ∧
    (Chunk.init path text images audios videos).videos = videos.getD [] ∧
    ((Chunk.init path text images audios videos).images.all
      (fun i => !i.closed)) = true ∧
    ∀ i : Img, prepare_image_full i =
      (⟨i.width, i.height, i.data, false⟩, ⟨i.width, i.height, i.data, true⟩) := by
  refine ⟨rfl, rfl, rfl, rfl, ?_, fun i => rfl⟩
  simp only [Chunk.init, List.all_eq_true]
  intro i hi
  obtain ⟨j, _, rfl⟩ := List.mem_map.mp hi
  rfl

/-! ## Claim C2 -/

/-- Claim C2 (counterexample to the claim as stated): for a 1024×1024 image
at the default detail, the code scales to 768×768 and counts floor-division
tiles, giving 170·1+85 = 255; the claim's covering-tile count is
⌈768/512⌉² = 4 tiles, giving 765. -/
theorem claim_C2_counterexample :
    calculate_image_tokens ⟨1024, 1024, [], false⟩ "auto" = 255 ∧
    claimImageTokens 1024 1024 "auto" = 765 ∧ (255 : ℕ) ≠ 765 :=
  ⟨by decide, by decide, by decide⟩

/-- Claim C2 (amended): the image cost is 85 for detail "low", or at the
default "auto" detail when both dimensions are at most 512; otherwise it is
170×T+85 where T counts the complete 512×512 tiles that fit inside the
image after capping each dimension at 2048 and scaling the short side to
768; and `calculate_tokens` is the integer part of the sum of `len(text)/4`
plus these per-image costs. -/
theorem claim_C2 (img : Img) (detail : String) (chunks : List Chunk) :
    calculate_image_tokens img detail
      = amendedImageTokens img.width img.height detail ∧
    calculate_tokens chunks false =
      (chunks.map (fun c => c.text.length)).sum / 4 +
      (chunks.map (fun c =>
        (c.images.map (fun i => calculate_image_tokens i "auto")).sum)).sum := by
  constructor
  · by_cases h1 : detail = "low"
    · simp [calculate_image_tokens, amendedImageTokens, h1]
    · by_cases h2 : detail = "high"
      · simp [calculate_image_tokens, amendedImageTokens, imageTokensHigh, h1, h2]
      · by_cases h3 : img.width ≤ 512 ∧ img.height ≤ 512
        · simp [calculate_image_tokens, amendedImageTokens, h1, h2, h3]
        · simp [calculate_image_tokens, amendedImageTokens, imageTokensHigh,
            h1, h2, h3]
  · have hq : ∀ c : Chunk, chunkTokensQ c false
        = (c.text.length : ℚ) / 4 +
          ((c.images.map (fun i => calculate_image_tokens i "auto")).sum : ℚ) := by
      intro c
      unfold chunkTokensQ
      by_cases ht : c.text = "" <;> by_cases hi : c.images = [] <;>
        simp [ht, hi]
    have hsum : ∀ cs : List Chunk,
        (cs.map (fun c => chunkTokensQ c false)).sum =
          (((cs.map (fun c => c.text.length)).sum : ℕ) : ℚ) / 4 +
          (((cs.map (fun c =>
            (c.images.map (fun i => calculate_image_tokens i "auto")).sum)).sum : ℕ) : ℚ) := by
      intro cs
      induction cs with
      | nil => simp
      | cons c t ih =>
        simp only [List.map_cons, List.sum_cons, Nat.cast_add, ih, hq c]
        ring
    unfold calculate_tokens
    rw [hsum]
    rw [Nat.floor_add_nat (by positivity)]
    congr 1
    rw [show ((4 : ℚ)) = ((4 : ℕ) : ℚ) by norm_num, Nat.floor_div_nat,
      Nat.floor_natCast]

/-! ## Claim C7 -/

/-- Claim C7 (counterexample to the claim as stated): `scrape_plaintext` on
an empty file returns one unit with empty text and no images, so not every
producer discards empty units. -/
theorem claim_C7_counterexample :
    (scrape_plaintext "empty.txt" "").all isContentBearing = false := by
  decide

/-- Claim C7 (amended): `scrape_plaintext` and `scrape_audio` always return
exactly one unit and do not filter empty content: the unit is
content-bearing exactly when the file text, respectively some transcribed
segment's stripped text, is non-empty. -/
theorem claim_C7 (path content : String) (segments : List AudioSegment) :
    ((scrape_plaintext path content).all isContentBearing = true ↔
      content ≠ "") ∧
    ((scrape_audio path segments).all isContentBearing = true ↔
      ∃ s ∈ segments, pyStrip s.text ≠ "") := by
  constructor
  · simp [scrape_plaintext, Chunk.init, isContentBearing]
  · simp only [scrape_audio, Chunk.init, Option.getD_some, Option.getD_none,
      List.map_nil, List.all_cons, List.all_nil, Bool.and_true,
      isContentBearing, List.isEmpty_nil, Bool.not_true, Bool.or_false]
    rw [bne_iff_ne]
    constructor
    · intro h
      by_contra hc
      push_neg at hc
      have hfil : segments.filter (fun s => decide (pyStrip s.text ≠ "")) = [] := by
        apply List.filter_eq_nil_iff.mpr
        intro a ha
        simp [hc a ha]
      rw [hfil] at h
      simp [joinNL] at h
    · rintro ⟨s, hs, hne⟩
      have hmem : s ∈ segments.filter (fun s => decide (pyStrip s.text ≠ "")) := by
        simp [List.mem_filter, hs, hne]
      obtain ⟨x, xs, hx⟩ : ∃ x xs,
          segments.filter (fun s => decide (pyStrip s.text ≠ "")) = x :: xs := by
        cases hf : segments.filter (fun s => decide (pyStrip s.text ≠ "")) with
        | nil => rw [hf] at hmem; simp at hmem
        | cons x xs => exact ⟨x, xs, rfl⟩
      rw [hx]
      simp only [List.map_cons]
      apply joinNL_cons_ne_empty
      simp only [String.length_append]
      have h1 : 0 < "[".length := by decide
      omega

/-! ## Claim C8 -/

/-- Claim C8: for every chunk, decoding its serialised form and
re-serialising (`Chunk.from_json(c.to_json()).to_json()`, `host_images`
false) reproduces the serialised text and an image list of equal length.
The external JPEG encoder/decoder and image host are arbitrary. -/
theorem claim_C8 (jpegBytes : Img → List Nat) (hostStore : Img → String)
    (jpegOpen : List Nat → Img) (fetch : String → List Nat) (c : Chunk) :
    ((Chunk.from_json jpegOpen fetch
        (Chunk.to_json jpegBytes hostStore c false false) false).to_json
          jpegBytes hostStore false false).text
      = (Chunk.to_json jpegBytes hostStore c false false).text ∧
    ((Chunk.from_json jpegOpen fetch
        (Chunk.to_json jpegBytes hostStore c false false) false).to_json
          jpegBytes hostStore false false).images.length
      = (Chunk.to_json jpegBytes hostStore c false false).images.length := by
  constructor
  · show pyStrip (pyStrip (pyStrip c.text)) = pyStrip c.text
    rw [pyStrip_idem, pyStrip_idem]
  · by_cases hi : c.images = []
    · simp [Chunk.to_json, Chunk.from_json, Chunk.init, hi]
    · simp [Chunk.to_json, Chunk.from_json, Chunk.init, hi]

/-! ## Claims C1 and C5: the concurrent PDF page engine -/

theorem runPages_ok (page : Nat → Except PyErr PageResult)
    (f : Nat → PageResult) :
    ∀ order : List Nat, (∀ p ∈ order, page p = .ok (f p)) →
      runPages page order = .ok (order.map (fun p => (p, f p))) := by
  intro order
  induction order with
  | nil => intro _; rfl
  | cons a t ih =>
    intro h
    have ha := h a (List.mem_cons_self a t)
    have ht := ih (fun p hp => h p (List.mem_cons_of_mem a hp))
    simp [runPages, ha, ht]

theorem lookup_map_pair (g : Nat → PageResult) :
    ∀ (l : List Nat) (q : Nat), q ∈ l →
      (l.map (fun p => (p, g p))).lookup q = some (g q) := by
  intro l
  induction l with
  | nil => intro q hq; simp at hq
  | cons a t ih =>
    intro q hq
    by_cases hqa : q = a
    · subst hqa
      simp [List.lookup]
    · rcases List.mem_cons.mp hq with h | h
      · exact absurd h hqa
      · have hbeq : (q == a) = false := beq_eq_false_iff_ne.mpr hqa
        simpa [List.lookup, hbeq] using ih q h

theorem map_fst_pairs (f : Nat → PageResult) :
    ∀ l : List Nat, (l.map (fun p => (p, f p))).map Prod.fst = l := by
  intro l
  induction l with
  | nil => rfl
  | cons a t ih => simp only [List.map_cons, ih]

theorem insertionSort_perm_range (N : Nat) (order : List Nat)
    (h : order.Perm (List.range N)) :
    order.insertionSort (· ≤ ·) = List.range N :=
  List.eq_of_perm_of_sorted ((List.perm_insertionSort _ _).trans h)
    (List.sorted_insertionSort _ _) (List.sorted_le_range N)

/-- Claim C1: when every page task succeeds, the VLM branch of `scrape_pdf`
returns exactly one chunk per page, in strictly ascending page order,
whatever the completion order of the concurrently submitted tasks. -/
theorem claim_C1 (path : String) (N : Nat) (order : List Nat)
    (page : Nat → Except PyErr PageResult) (f : Nat → PageResult)
    (hperm : order.Perm (List.range N))
    (hok : ∀ p, p < N → page p = .ok (f p)) :
    scrape_pdf_vlm path N order page =
      .ok ((List.range N).map (fun p =>
        Chunk.init (some path) (some (f p).1)
          (some (match (f p).2 with | some i => [i] | none => []))
          none none)) := by
  have hmem : ∀ p ∈ order, p < N := fun p hp =>
    List.mem_range.mp (hperm.subset hp)
  have hstep : scrape_pdf_vlm path N order page
      = .ok (emitChunks path (order.map (fun p => (p, f p)))) := by
    unfold scrape_pdf_vlm
    rw [runPages_ok page f order (fun p hp => hok p (hmem p hp))]
  rw [hstep]
  unfold emitChunks
  rw [map_fst_pairs f order, insertionSort_perm_range N order hperm]
  refine congrArg Except.ok (List.map_congr_left ?_)
  intro p hp
  have hpo : p ∈ order := hperm.mem_iff.mpr hp
  rw [lookup_map_pair f order p hpo]
  rfl

/-- Claim C1 witness: three pages completing in the order 2, 0, 1 still come
out as pages 0, 1, 2. -/
theorem claim_C1_witness :
    scrape_pdf_vlm "doc.pdf" 3 [2, 0, 1]
        (fun p => .ok (toString p, none)) =
      .ok ((List.range 3).map (fun p =>
        Chunk.init (some "doc.pdf") (some (toString p)) (some [])
          none none)) := by
  have h := claim_C1 "doc.pdf" 3 [2, 0, 1]
    (fun p => .ok (toString p, none)) (fun p => (toString p, none))
    (by decide) (fun p _ => rfl)
  exact h

theorem runPages_error (page : Nat → Except PyErr PageResult) :
    ∀ (order : List Nat) (p : Nat) (e : PyErr), p ∈ order →
      page p = .error e → ∃ e', runPages page order = .error e' := by
  intro order
  induction order with
  | nil => intro p e hp _; simp at hp
  | cons a t ih =>
    intro p e hp he
    cases ha : page a with
    | error e0 => exact ⟨e0, by simp [runPages, ha]⟩
    | ok r =>
      have hpt : p ∈ t := by
        rcases List.mem_cons.mp hp with h | h
        · rw [h] at he; rw [he] at ha; exact absurd ha (by simp)
        · exact h
      obtain ⟨e', he'⟩ := ih p e hpt he
      exact ⟨e', by simp [runPages, ha, he']⟩

/-- Claim C5: if any page task raises, the failure propagates out of the VLM
branch of `scrape_pdf` — no chunk list is returned, so the failing page is
never replaced by an empty unit. -/
theorem claim_C5 (path : String) (N : Nat) (order : List Nat)
    (page : Nat → Except PyErr PageResult) (p : Nat) (e : PyErr)
    (hp : p ∈ order) (he : page p = .error e) :
    isOkB (scrape_pdf_vlm path N order page) = false := by
  obtain ⟨e', he'⟩ := runPages_error page order p e hp he
  unfold scrape_pdf_vlm
  rw [he']
  rfl

/-- Claim C5 witness: two pages, the later-submitted one completing first
and failing, abort the whole extraction. -/
theorem claim_C5_witness :
    isOkB (scrape_pdf_vlm "d.pdf" 2 [1, 0]
      (fun p => if p = 1 then .error (.err "boom")
                else .ok ("x", none))) = false :=
  claim_C5 "d.pdf" 2 [1, 0] _ 1 (.err "boom") (by decide) (by simp)

/-! ## Claim C6 -/

/-- Claim C6: an empty model response — `None` or the empty string — is
raised as an error both by the per-page worker of `scrape_pdf` and by
`parse_webpage_with_vlm`; neither returns it as an empty unit. -/
theorem claim_C6 (pageImage : Option Img) (io : Bool) (resp : Option String)
    (url : String) (shots : List Img) (io2 : Bool)
    (hresp : resp = none ∨ resp = some "") (hshots : shots ≠ []) :
    process_page pageImage io resp = .error (.err "Empty LLM response.") ∧
    parse_webpage_with_vlm url shots resp io2 =
      .error (.err "Failed to receive a message content from LLM Response") := by
  rcases hresp with h | h <;> subst h <;>
    exact ⟨by simp [process_page], by simp [parse_webpage_with_vlm, hshots]⟩

/-- Claim C6 witness: a `None` reply with one screenshot. -/
theorem claim_C6_witness :
    process_page none true none = .error (.err "Empty LLM response.") ∧
    parse_webpage_with_vlm "https://x.test" [⟨2, 2, [0], false⟩] none true =
      .error (.err "Failed to receive a message content from LLM Response") :=
  claim_C6 none true none "https://x.test" [⟨2, 2, [0], false⟩] true
    (Or.inl rfl) (by simp)

/-! ## Claim C3 -/

theorem pyStrip_empty : pyStrip "" = "" := rfl

/-- Claim C3 (counterexample to the claim as stated): with a client and
input images enabled, a failing tier-1 model capture propagates directly
out of the generic web branch of `scrape_url` — tier 2 is never attempted
and the caller sees an error even though the tier-2 browser extraction
would have yielded non-empty text. -/
theorem claim_C3_counterexample :
    scrape_url_web "https://example.test" true true true
        (.error (.err "tier1 failed")) (.ok ("tier2 text", []))
        (.ok "tier3 text")
      = .error (.err "tier1 failed") ∧
    ("tier2 text" : String) ≠ "" := by
  exact ⟨rfl, by decide⟩

/-- Claim C3 (amended): when the model path is selected (client present and
input images requested) a tier-1 failure propagates immediately without
attempting tiers 2 and 3; on the non-model path a tier-2 failure falls back
to the tier-3 plain fetch, whose stripped text is returned when non-empty,
and when tiers 2 and 3 both fail the no-content error is raised. -/
theorem claim_C3 (url : String) (io : Bool) (e1 e2 e3 : PyErr)
    (t1 : Except PyErr Chunk) (t2 : Except PyErr (String × List Img))
    (t3 : Except PyErr String) (md : String) (hmd : pyStrip md ≠ "") :
    (scrape_url_web url true true io (.error e1) t2 t3 = .error e1) ∧
    (scrape_url_web url false io io t1 (.error e2) (.ok md) =
      .ok [Chunk.init (some url) (some (pyStrip md)) (some []) none none]) ∧
    (scrape_url_web url false io io t1 (.error e2) (.error e3) =
      .error (.err "No content extracted from URL.")) := by
  refine ⟨?_, ?_, ?_⟩
  · simp [scrape_url_web]
  · simp [scrape_url_web, extract_page_content, chunk_by_page, finishWeb,
      Chunk.init, joinNL, hmd]
  · simp [scrape_url_web, extract_page_content, chunk_by_page, finishWeb,
      Chunk.init, joinNL, pyStrip_empty]

/-- Claim C3 witness: concrete tier outcomes for each arm of the amended
claim. -/
theorem claim_C3_witness :
    (scrape_url_web "https://example.test" true true true (.error .perm)
        (.ok ("", [])) (.ok "") = .error .perm) ∧
    (scrape_url_web "https://example.test" false true true
        (.ok (Chunk.init none none none none none)) (.error .perm)
        (.ok "hello") =
      .ok [Chunk.init (some "https://example.test") (some (pyStrip "hello"))
        (some []) none none]) ∧
    (scrape_url_web "https://example.test" false true true
        (.ok (Chunk.init none none none none none)) (.error .perm)
        (.error .perm) =
      .error (.err "No content extracted from URL.")) :=
  claim_C3 "https://example.test" true .perm .perm .perm
    (.ok (Chunk.init none none none none none)) (.ok ("", [])) (.ok "")
    "hello" (by decide)

/-! ## Claim C4 -/

/-- Claim C4 (counterexample to the claim as stated): a PDF whose strategy
raises makes `scrape_file` raise rather than return no content — the
failure is not caught at the dispatch boundary. -/
theorem claim_C4_counterexample :
    scrape_file "application/pdf"
        ⟨.error (.err "page failed"), .ok [], .ok [], .ok [], .ok [], .ok [],
          .ok [], .ok [], .ok [], .ok [], .ok []⟩
      = .error (.err "page failed") ∧
    isOkB (scrape_file "application/pdf"
        ⟨.error (.err "page failed"), .ok [], .ok [], .ok [], .ok [], .ok [],
          .ok [], .ok [], .ok [], .ok [], .ok []⟩) = false :=
  ⟨rfl, rfl⟩

/-- Claim C4 (amended): only the best-effort fallback branch for
unrecognised media types catches a strategy failure and degrades it to no
content; a recognised type-specific strategy's failure (PDF shown here)
propagates out of `scrape_file`, and a non-permission failure propagates
out of the directory-traversal loop as well, aborting the batch. -/
theorem claim_C4 (r : StrategyResults) (e : PyErr) (rest : List FSNode)
    (acc : List Chunk) (m : String)
    (hpdf : r.pdf = .error e) (hpt : r.plaintext = .error e) :
    scrape_file "application/pdf" r = .error e ∧
    scrape_file "application/octet-stream" r = .ok [] ∧
    scrapeEntries (.file (.error (.err m)) :: rest) acc = .error (.err m) := by
  refine ⟨?_, ?_, ?_⟩
  · have hd : scrape_file "application/pdf" r
        = match r.pdf with
          | .error e => .error e
          | .ok cs => .ok (chunk_by_page cs) := rfl
    rw [hd, hpdf]
  · have hd : scrape_file "application/octet-stream" r
        = match (match r.plaintext with
                 | .ok cs => (.ok cs : Except PyErr (List Chunk))
                 | .error _ => .ok []) with
          | .error e => .error e
          | .ok cs => .ok (chunk_by_page cs) := rfl
    rw [hd, hpt]
    rfl
  · simp [scrapeEntries]

/-- Claim C4 witness: one strategy-result record whose PDF and plain-text
strategies both fail. -/
theorem claim_C4_witness :
    scrape_file "application/pdf"
        ⟨.error (.err "x"), .ok [], .ok [], .ok [], .ok [], .ok [], .ok [],
          .ok [], .ok [], .ok [], .error (.err "x")⟩ = .error (.err "x") ∧
    scrape_file "application/octet-stream"
        ⟨.error (.err "x"), .ok [], .ok [], .ok [], .ok [], .ok [], .ok [],
          .ok [], .ok [], .ok [], .error (.err "x")⟩ = .ok [] ∧
    scrapeEntries [.file (.error (.err "x"))] [] = .error (.err "x") :=
  claim_C4
    ⟨.error (.err "x"), .ok [], .ok [], .ok [], .ok [], .ok [], .ok [],
      .ok [], .ok [], .ok [], .error (.err "x")⟩
    (.err "x") [] [] "x" rfl rfl

/-! ## Claim C9 -/

/-- Claim C9 (counterexample to the claim as stated): a permission error on
a file entry is caught by the try/except wrapping the whole directory loop,
abandoning the remaining entries of that directory — the readable second
entry's chunk is missing from the result although scraping it alone
succeeds. -/
theorem claim_C9_counterexample :
    scrapeEntries
        [.file (.error .perm),
         .file (.ok [Chunk.init (some "b.txt") (some "hello") none none none])]
        [] = .ok [] ∧
    scrapeEntries
        [.file (.ok [Chunk.init (some "b.txt") (some "hello") none none none])]
        [] = .ok [Chunk.init (some "b.txt") (some "hello") none none none] := by
  constructor <;> simp [scrapeEntries]

/-- Claim C9 (amended): an unreadable subdirectory is skipped per-entry
(the recursive call catches its permission error and the parent loop
continues), while a permission error raised scraping a file entry ends that
directory's loop, returning only the chunks accumulated so far; readable
file entries accumulate normally; other directories are unaffected. -/
theorem claim_C9 (sub rest : List FSNode) (acc cs : List Chunk) :
    scrapeEntries (.dir false sub :: rest) acc = scrapeEntries rest acc ∧
    scrape_directory false sub = .ok [] ∧
    scrapeEntries (.file (.error .perm) :: rest) acc = .ok acc ∧
    scrapeEntries (.file (.ok cs) :: rest) acc = scrapeEntries rest (acc ++ cs) := by
  refine ⟨?_, rfl, ?_, ?_⟩
  · simp [scrapeEntries]
  · simp [scrapeEntries]
  · simp [scrapeEntries]

end ThePipe
